import Mathlib

/-!
Shallow embedding of the snx-rs client core covered by the specification:
the `ServiceController` command state machine (`src/controller.rs`) and the
IPsec tunnel run/drop logic (`src/tunnel/ipsec.rs`).

External collaborators (IPC transport, OS keychain, secure prompt, SSO/OTP
listener, server-info prefetch, platform configurator) are modelled as an
explicit environment: the IPC transport is a script of responses consumed in
order (one entry per `send_receive` call; an exhausted script models a
transport timeout), and every externally visible action is recorded in an
event trace so that "exactly once" / "never" properties can be stated as
facts about the trace.
-/

/-- Mirrors `MfaType` from the model module: `UserInput` or `SamlSso`. -/
inductive MfaType where
  | UserInput
  | SamlSso
  deriving Repr, DecidableEq

/-- Mirrors `MfaChallenge { mfa_type, prompt }`. -/
structure MfaChallenge where
  mfa_type : MfaType
  prompt : String
  deriving Repr, DecidableEq

/-- Mirrors `ConnectionStatus`: an optional `connected_since` timestamp
(modelled as a `Nat`) and an optional pending MFA challenge. -/
structure ConnectionStatus where
  connected_since : Option Nat
  mfa : Option MfaChallenge
  deriving Repr, DecidableEq

/-- The fields of `TunnelParams` read by the controller core: server name,
login type, user name, password, optional client certificate, and the
no-keychain flag. -/
structure TunnelParams where
  server_name : String
  login_type : String
  user_name : String
  password : String
  client_cert : Option String
  no_keychain : Bool
  deriving Repr, DecidableEq

/-- Mirrors `TunnelServiceRequest`. -/
inductive TunnelServiceRequest where
  | GetStatus
  | Connect (params : TunnelParams)
  | ChallengeCode (code : String) (params : TunnelParams)
  | Disconnect
  deriving Repr, DecidableEq

/-- Mirrors `TunnelServiceResponse`. -/
inductive TunnelServiceResponse where
  | Ok
  | Error (message : String)
  | ConnectionStatus (status : ConnectionStatus)
  deriving Repr, DecidableEq

/-- Mirrors `ServiceCommand`. -/
inductive ServiceCommand where
  | Status
  | Connect
  | Disconnect
  | Reconnect
  | Info
  deriving Repr, DecidableEq

/-- `RECV_TIMEOUT` (seconds), the short status-poll timeout. -/
def RECV_TIMEOUT : Nat := 2

/-- `CONNECT_TIMEOUT` (seconds), the long negotiation timeout. -/
def CONNECT_TIMEOUT : Nat := 120

/-- Literal error text of the missing-parameter check in `do_connect`. -/
def missingParamsError : String :=
  "Missing required parameters in the config file: server name and/or login type"

/-- Literal error text of the unexpected-response branches. -/
def invalidResponseError : String := "Invalid response!"

/-- Stands for the transport error produced by `send_receive` when no reply
datagram arrives within the timeout (the script is exhausted). -/
def noResponseError : String := "No response from the service"

/-- Externally visible actions of the controller, recorded in order. -/
inductive Event where
  | sendReceive (request : TunnelServiceRequest) (timeoutSecs : Nat)
  | secureInput (promptText : String)
  | acquirePassword (user : String)
  | storePassword (user : String) (password : String)
  | openUrl (url : String)
  | otpListen
  | fillPwdPrompts
  | getServerInfo
  deriving Repr, DecidableEq

/-- Environment of external collaborators. The IPC script is kept separately
in `CState`; everything here is a fixed oracle. `storePassword` mirrors
`platform::store_password`, whose result the code discards (`let _ = ...`). -/
structure Env where
  secureInput : String → Except String String
  acquirePassword : String → Except String String
  storePassword : String → String → Except String Unit
  openUrl : String → Except String Unit
  otpCode : Except String String
  pwdPrompts : Except String (List String)
  serverInfo : Except String Unit

deriving instance DecidableEq for Except

/-- Mutable controller state: `self.params`, `self.pwd_prompts` (the
`VecDeque` as a list, front first) and the pending IPC response script. -/
structure CState where
  params : TunnelParams
  pwd_prompts : Option (List String)
  ipcScript : List (Except String TunnelServiceResponse)
  deriving Repr, DecidableEq

/-- Mirrors `get_mfa_input`: for `UserInput`, one secure prompt with the
challenge text; for `SamlSso`, open the URL then await the OTP listener under
the fixed timeout (both failure modes collapse into the `Except`). Returns
the acquired input together with the events it emitted. It reads no mutable
controller state. -/
def get_mfa_input (env : Env) (mfa : MfaChallenge) : Except String String × List Event :=
  match mfa.mfa_type with
  | .UserInput => (env.secureInput mfa.prompt, [.secureInput mfa.prompt])
  | .SamlSso =>
      match env.openUrl mfa.prompt with
      | .error e => (.error e, [.openUrl mfa.prompt])
      | .ok _ => (env.otpCode, [.openUrl mfa.prompt, .otpListen])

mutual

/-- Mirrors `do_status`. Sends `GetStatus` with the short timeout (consuming
one script entry), and on a `ConnectionStatus` with `connected_since = None`
and a pending challenge resolves the challenge and recurses through
`do_challenge_code`; otherwise it best-effort stores the password in the
keychain when connected with a non-empty password and keychain enabled, and
returns the status. `do_status` and `do_challenge_code` never mutate
`self.params` or `self.pwd_prompts` in the source, so they take the
parameters by value and return only the remaining script and the events. -/
def do_status (env : Env) (ps : TunnelParams)
    (script : List (Except String TunnelServiceResponse)) :
    Except String ConnectionStatus × List (Except String TunnelServiceResponse) × List Event :=
  match script with
  | [] => (.error noResponseError, [], [.sendReceive .GetStatus RECV_TIMEOUT])
  | response :: rest =>
    match response with
    | .ok (.ConnectionStatus status) =>
      match status.connected_since, status.mfa with
      | none, some mfa =>
        match get_mfa_input env mfa with
        | (.error e, evs) => (.error e, rest, .sendReceive .GetStatus RECV_TIMEOUT :: evs)
        | (.ok input, evs) =>
          let out := do_challenge_code env ps input rest
          (out.1, out.2.1, .sendReceive .GetStatus RECV_TIMEOUT :: (evs ++ out.2.2))
      | _, _ =>
        if status.connected_since.isSome && !ps.password.isEmpty && !ps.no_keychain then
          (.ok status, rest,
            [.sendReceive .GetStatus RECV_TIMEOUT, .storePassword ps.user_name ps.password])
        else
          (.ok status, rest, [.sendReceive .GetStatus RECV_TIMEOUT])
    | .ok _ => (.error invalidResponseError, rest, [.sendReceive .GetStatus RECV_TIMEOUT])
    | .error e => (.error e, rest, [.sendReceive .GetStatus RECV_TIMEOUT])

/-- Mirrors `do_challenge_code`: sends `ChallengeCode(code, self.params)` with
the long timeout; `Ok` leads back into `do_status`, `Error` and unexpected
variants fail, transport errors propagate. -/
def do_challenge_code (env : Env) (ps : TunnelParams) (code : String)
    (script : List (Except String TunnelServiceResponse)) :
    Except String ConnectionStatus × List (Except String TunnelServiceResponse) × List Event :=
  match script with
  | [] => (.error noResponseError, [], [.sendReceive (.ChallengeCode code ps) CONNECT_TIMEOUT])
  | response :: rest =>
    match response with
    | .ok .Ok =>
      let out := do_status env ps rest
      (out.1, out.2.1, .sendReceive (.ChallengeCode code ps) CONNECT_TIMEOUT :: out.2.2)
    | .ok (.Error e) => (.error e, rest, [.sendReceive (.ChallengeCode code ps) CONNECT_TIMEOUT])
    | .ok _ =>
      (.error invalidResponseError, rest, [.sendReceive (.ChallengeCode code ps) CONNECT_TIMEOUT])
    | .error e => (.error e, rest, [.sendReceive (.ChallengeCode code ps) CONNECT_TIMEOUT])

end

/-- The prompt text chosen by `do_connect`'s interactive branch:
`self.pwd_prompts.as_mut().and_then(pop_front).unwrap_or(format!("Enter password for {}: ", user))`. -/
def chosenPrompt (queue : Option (List String)) (user : String) : String :=
  match queue with
  | some (p :: _) => p
  | _ => "Enter password for " ++ user ++ ": "

/-- The prompt queue after `pop_front` was attempted on it. -/
def poppedQueue (queue : Option (List String)) : Option (List String) :=
  match queue with
  | some (_ :: ps) => some ps
  | some [] => some []
  | none => none

/-- Models Rust's `str::trim`: remove leading and trailing whitespace.
Defined over the character list so that it evaluates in the kernel
(Lean's own `String.trim` is defined by well-founded recursion on byte
positions and does not reduce). -/
def trimString (s : String) : String :=
  ⟨((s.data.dropWhile Char.isWhitespace).reverse.dropWhile Char.isWhitespace).reverse⟩

/-- Mirrors `do_connect`: check server name / login type, then — when the
password is empty and no client certificate is set — acquire a password from
the keychain (failure ignored: `if let Ok(...)`) or, with `no_keychain`, from
the secure prompt (failure propagates via `?`; the prompt queue has already
been popped; the typed input is trimmed), committing the updated params to
`self.params`; then send `Connect(self.params)` with the long timeout and
handle the response as in the source. -/
def do_connect (env : Env) (s : CState) :
    Except String ConnectionStatus × CState × List Event :=
  let params := s.params
  if params.server_name.isEmpty || params.login_type.isEmpty then
    (.error missingParamsError, s, [])
  else
    let acq : Except String Unit × TunnelParams × Option (List String) × List Event :=
      if params.password.isEmpty && params.client_cert.isNone then
        if !params.no_keychain then
          match env.acquirePassword params.user_name with
          | .ok password =>
              (.ok (), { params with password := password }, s.pwd_prompts,
                [.acquirePassword params.user_name])
          | .error _ =>
              (.ok (), params, s.pwd_prompts, [.acquirePassword params.user_name])
        else
          let promptText := chosenPrompt s.pwd_prompts params.user_name
          match env.secureInput promptText with
          | .ok input =>
              (.ok (), { params with password := trimString input }, poppedQueue s.pwd_prompts,
                [.secureInput promptText])
          | .error e =>
              (.error e, s.params, poppedQueue s.pwd_prompts, [.secureInput promptText])
      else
        (.ok (), s.params, s.pwd_prompts, [])
    match acq with
    | (.error e, _, pwd2, evs1) =>
        (.error e, { s with pwd_prompts := pwd2 }, evs1)
    | (.ok _, params2, pwd2, evs1) =>
      match s.ipcScript with
      | [] =>
          (.error noResponseError, ⟨params2, pwd2, []⟩,
            evs1 ++ [.sendReceive (.Connect params2) CONNECT_TIMEOUT])
      | response :: rest =>
        let evs := evs1 ++ [.sendReceive (.Connect params2) CONNECT_TIMEOUT]
        match response with
        | .ok .Ok =>
            let out := do_status env params2 rest
            (out.1, ⟨params2, pwd2, out.2.1⟩, evs ++ out.2.2)
        | .ok (.Error e) => (.error e, ⟨params2, pwd2, rest⟩, evs)
        | .ok _ => (.error invalidResponseError, ⟨params2, pwd2, rest⟩, evs)
        | .error e => (.error e, ⟨params2, pwd2, rest⟩, evs)

/-- Mirrors `do_disconnect`: send `Disconnect` with the short timeout; the
response value is discarded (only transport errors propagate via `?`), then
re-run `do_status`. -/
def do_disconnect (env : Env) (s : CState) :
    Except String ConnectionStatus × CState × List Event :=
  match s.ipcScript with
  | [] => (.error noResponseError, { s with ipcScript := [] },
      [.sendReceive .Disconnect RECV_TIMEOUT])
  | response :: rest =>
    match response with
    | .error e => (.error e, { s with ipcScript := rest }, [.sendReceive .Disconnect RECV_TIMEOUT])
    | .ok _ =>
      let out := do_status env s.params rest
      (out.1, { s with ipcScript := out.2.1 }, .sendReceive .Disconnect RECV_TIMEOUT :: out.2.2)

/-- Mirrors `fill_pwd_prompts`: replace `self.pwd_prompts` with the
best-effort server-provided list (`unwrap_or_default` on failure). The
function itself always returns `Ok(())`. -/
def fill_pwd_prompts (env : Env) (s : CState) : CState × List Event :=
  ({ s with pwd_prompts := some (match env.pwdPrompts with | .ok ps => ps | .error _ => []) },
    [.fillPwdPrompts])

/-- Mirrors `do_info`: query server info directly (bypassing the service) and
return a default (disconnected) status. -/
def do_info (env : Env) (s : CState) :
    Except String ConnectionStatus × CState × List Event :=
  match env.serverInfo with
  | .error e => (.error e, s, [.getServerInfo])
  | .ok _ => (.ok ⟨none, none⟩, s, [.getServerInfo])

/-- Mirrors `ServiceController::command`: the per-command orchestration. -/
def command (env : Env) (s : CState) (cmd : ServiceCommand) :
    Except String ConnectionStatus × CState × List Event :=
  match cmd with
  | .Status =>
    let out := do_status env s.params s.ipcScript
    (out.1, { s with ipcScript := out.2.1 }, out.2.2)
  | .Connect =>
    let fp := fill_pwd_prompts env s
    let st := do_status env fp.1.params fp.1.ipcScript
    let s2 : CState := { fp.1 with ipcScript := st.2.1 }
    match st.1 with
    | .error e => (.error e, s2, fp.2 ++ st.2.2)
    | .ok _ =>
      let out := do_connect env s2
      (out.1, out.2.1, fp.2 ++ st.2.2 ++ out.2.2)
  | .Disconnect =>
    let st := do_status env s.params s.ipcScript
    let s1 : CState := { s with ipcScript := st.2.1 }
    match st.1 with
    | .error e => (.error e, s1, st.2.2)
    | .ok _ =>
      let out := do_disconnect env s1
      (out.1, out.2.1, st.2.2 ++ out.2.2)
  | .Reconnect =>
    let dis := do_disconnect env s
    let fp := fill_pwd_prompts env dis.2.1
    let out := do_connect env fp.1
    (out.1, out.2.1, dis.2.2 ++ fp.2 ++ out.2.2)
  | .Info => do_info env s

/-!
Embedding of `src/tunnel/ipsec.rs`: the `run` method of the established
IPsec tunnel and its `Drop` implementation.
-/

/-- Externally visible actions of `SnxIpsecTunnel::run`, in order. -/
inductive RunEvent where
  | decapStarted
  | connectedStored
  | decapStopSent
  deriving Repr, DecidableEq

/-- Which of the two raced futures in `tokio::select!` resolves first:
the external stop signal, or the keepalive runner completing with the given
result. -/
inductive RaceWinner where
  | stopSignal
  | keepalive (result : Except String Unit)
  deriving Repr, DecidableEq

/-- Environment for one `run` invocation: the result of
`decap::start_decap_listener()` and the winner of the race. -/
structure RunEnv where
  decapStart : Except String Unit
  winner : RaceWinner
  deriving Repr, DecidableEq

/-- Mirrors `SnxTunnel::run` for `SnxIpsecTunnel`: start the decapsulation
listener (`?` propagates its failure), store `true` into the shared connected
flag, then race the stop receiver against the keepalive runner. On the stop
branch the one-shot stop signal is sent to the listener (`let _ =` on the
send result) and `Ok(())` is returned; on the keepalive branch the runner's
result is returned as-is. -/
def SnxIpsecTunnel.run (env : RunEnv) : Except String Unit × List RunEvent :=
  match env.decapStart with
  | .error e => (.error e, [])
  | .ok _ =>
    match env.winner with
    | .stopSignal => (.ok (), [.decapStarted, .connectedStored, .decapStopSent])
    | .keepalive result => (result, [.decapStarted, .connectedStored])

/-- Environment for one `drop` of a successfully established tunnel: the
result of `tokio::runtime::Builder::new_current_thread().enable_all().build()`
inside the scoped cleanup thread. -/
structure DropEnv where
  runtimeBuild : Except String Unit
  deriving Repr, DecidableEq

/-- Outcome of `Drop::drop`: how many times `configurator.cleanup()` ran to
completion before `drop` returned, and whether `drop` panicked. -/
structure DropResult where
  cleanupCalls : Nat
  panicked : Bool
  deriving Repr, DecidableEq

/-- Mirrors `impl Drop for SnxIpsecTunnel`: a `std::thread::scope` spawns one
thread that builds a current-thread Tokio runtime and calls `.unwrap()` on
the build result, then blocks on `configurator.cleanup()` (which returns `()`
and cannot fail by its signature). The scope joins the thread before `drop`
returns, so on the success path cleanup has run to completion exactly once by
the time `drop` returns. If the runtime build fails, the `unwrap` panics in
the scoped thread, the scope re-raises the panic on join, and cleanup never
runs. -/
def SnxIpsecTunnel.drop (env : DropEnv) : DropResult :=
  match env.runtimeBuild with
  | .error _ => { cleanupCalls := 0, panicked := true }
  | .ok _ => { cleanupCalls := 1, panicked := false }

/-!
Event classifiers used to count externally visible actions.
-/

/-- True exactly on secure-prompt events. -/
def Event.isSecureInput : Event → Bool
  | .secureInput _ => true
  | _ => false

/-- True exactly on keychain store events. -/
def Event.isStorePassword : Event → Bool
  | .storePassword _ _ => true
  | _ => false

/-- True exactly on keychain acquire events. -/
def Event.isAcquirePassword : Event → Bool
  | .acquirePassword _ => true
  | _ => false

/-- True exactly on `ChallengeCode` IPC sends. -/
def Event.isChallengeCodeSend : Event → Bool
  | .sendReceive (.ChallengeCode _ _) _ => true
  | _ => false

/-- True exactly on `GetStatus` IPC sends. -/
def Event.isGetStatusSend : Event → Bool
  | .sendReceive .GetStatus _ => true
  | _ => false

/-- The events emitted by `get_mfa_input` are prompt / URL / OTP events:
never a keychain acquire or store. -/
theorem get_mfa_input_events (env : Env) (mfa : MfaChallenge) :
    (get_mfa_input env mfa).2.countP Event.isAcquirePassword = 0 ∧
    (get_mfa_input env mfa).2.countP Event.isStorePassword = 0 := by
  rcases mfa with ⟨t, p⟩
  cases t with
  | UserInput =>
      simp [get_mfa_input, Event.isAcquirePassword, Event.isStorePassword]
  | SamlSso =>
      cases h : env.openUrl p <;>
        simp [get_mfa_input, h, Event.isAcquirePassword, Event.isStorePassword]

/-- Invariant of the status / challenge recursion: it never performs a
keychain acquire, and when the configured password is empty or the keychain
is disabled it never performs a keychain store (the store branch's guard is
then false at every level of the recursion, whose parameters never change). -/
theorem status_events_aux (env : Env) (ps : TunnelParams) :
    ∀ n script, script.length ≤ n →
      (((do_status env ps script).2.2.countP Event.isAcquirePassword = 0) ∧
        ((ps.password.isEmpty || ps.no_keychain) = true →
          (do_status env ps script).2.2.countP Event.isStorePassword = 0)) ∧
      (∀ code,
        ((do_challenge_code env ps code script).2.2.countP Event.isAcquirePassword = 0) ∧
        ((ps.password.isEmpty || ps.no_keychain) = true →
          (do_challenge_code env ps code script).2.2.countP Event.isStorePassword = 0)) := by
  intro n
  induction n with
  | zero =>
    intro script hlen
    have hnil : script = [] := List.eq_nil_of_length_eq_zero (Nat.le_zero.mp hlen)
    subst hnil
    refine ⟨⟨?_, fun _ => ?_⟩, fun code => ⟨?_, fun _ => ?_⟩⟩ <;>
      simp [do_status, do_challenge_code, Event.isAcquirePassword, Event.isStorePassword]
  | succ n ih =>
    intro script hlen
    cases script with
    | nil =>
      refine ⟨⟨?_, fun _ => ?_⟩, fun code => ⟨?_, fun _ => ?_⟩⟩ <;>
        simp [do_status, do_challenge_code, Event.isAcquirePassword, Event.isStorePassword]
    | cons r rest =>
      have hrest : rest.length ≤ n := by
        simp only [List.length_cons] at hlen
        omega
      constructor
      · -- do_status on r :: rest
        cases r with
        | error e =>
            refine ⟨?_, fun _ => ?_⟩ <;>
              simp [do_status, Event.isAcquirePassword, Event.isStorePassword]
        | ok resp =>
          cases resp with
          | Ok =>
              refine ⟨?_, fun _ => ?_⟩ <;>
                simp [do_status, Event.isAcquirePassword, Event.isStorePassword]
          | Error m =>
              refine ⟨?_, fun _ => ?_⟩ <;>
                simp [do_status, Event.isAcquirePassword, Event.isStorePassword]
          | ConnectionStatus st =>
            rcases st with ⟨cs, mf⟩
            cases cs with
            | some t =>
              refine ⟨?_, fun hc => ?_⟩
              · simp only [do_status]
                split <;> simp [Event.isAcquirePassword]
              · have hc' : ps.password.isEmpty = true ∨ ps.no_keychain = true := by
                  simpa using hc
                rcases hc' with h | h <;> simp [do_status, h, Event.isStorePassword]
            | none =>
              cases mf with
              | none =>
                refine ⟨?_, fun _ => ?_⟩ <;>
                  simp [do_status, Event.isAcquirePassword, Event.isStorePassword]
              | some mfa =>
                have hev := get_mfa_input_events env mfa
                rcases hg : get_mfa_input env mfa with ⟨res, evs⟩
                rw [hg] at hev
                cases res with
                | error e =>
                    refine ⟨?_, fun _ => ?_⟩ <;>
                      simp [do_status, hg, List.countP_cons, Event.isAcquirePassword,
                        Event.isStorePassword, hev.1, hev.2]
                | ok input =>
                  have hch := (ih rest hrest).2 input
                  refine ⟨?_, fun hc => ?_⟩
                  · simp [do_status, hg, List.countP_cons, List.countP_append,
                      Event.isAcquirePassword, hev.1, hch.1]
                  · simp [do_status, hg, List.countP_cons, List.countP_append,
                      Event.isStorePassword, hev.2, hch.2 hc]
      · -- do_challenge_code on r :: rest
        intro code
        cases r with
        | error e =>
            refine ⟨?_, fun _ => ?_⟩ <;>
              simp [do_challenge_code, Event.isAcquirePassword, Event.isStorePassword]
        | ok resp =>
          cases resp with
          | Ok =>
            have hst := (ih rest hrest).1
            refine ⟨?_, fun hc => ?_⟩
            · simp [do_challenge_code, List.countP_cons,
                Event.isAcquirePassword, hst.1]
            · simp [do_challenge_code, List.countP_cons,
                Event.isStorePassword, hst.2 hc]
          | Error m =>
              refine ⟨?_, fun _ => ?_⟩ <;>
                simp [do_challenge_code, Event.isAcquirePassword, Event.isStorePassword]
          | ConnectionStatus st =>
              refine ⟨?_, fun _ => ?_⟩ <;>
                simp [do_challenge_code, Event.isAcquirePassword, Event.isStorePassword]

/-- When the configured password is non-empty, `do_connect` skips the whole
password-acquisition branch: its first externally visible action is already
the `Connect` IPC send carrying the stored parameters unchanged, the final
parameters equal the stored ones, and no keychain acquire happens anywhere
(the status recursion never acquires either). -/
theorem do_connect_nonempty_head (env : Env) (s : CState)
    (hs : s.params.server_name.isEmpty = false)
    (hl : s.params.login_type.isEmpty = false)
    (hp : s.params.password.isEmpty = false) :
    (do_connect env s).2.2.head? =
      some (.sendReceive (.Connect s.params) CONNECT_TIMEOUT) ∧
    (do_connect env s).2.1.params = s.params ∧
    (do_connect env s).2.2.countP Event.isAcquirePassword = 0 := by
  obtain ⟨ps, pwd, script⟩ := s
  replace hs : ps.server_name.isEmpty = false := hs
  replace hl : ps.login_type.isEmpty = false := hl
  replace hp : ps.password.isEmpty = false := hp
  cases script with
  | nil =>
      simp [do_connect, hs, hl, hp, Event.isAcquirePassword]
  | cons r rest =>
    cases r with
    | error e =>
        simp [do_connect, hs, hl, hp, Event.isAcquirePassword]
    | ok resp =>
      cases resp with
      | Ok =>
        have haux := ((status_events_aux env ps rest.length rest le_rfl).1).1
        simp [do_connect, hs, hl, hp, List.countP_cons, Event.isAcquirePassword, haux]
      | Error m =>
          simp [do_connect, hs, hl, hp, Event.isAcquirePassword]
      | ConnectionStatus st =>
          simp [do_connect, hs, hl, hp, Event.isAcquirePassword]

/-- `do_disconnect` never changes `self.params` or `self.pwd_prompts`. -/
theorem do_disconnect_params (env : Env) (s : CState) :
    (do_disconnect env s).2.1.params = s.params ∧
    (do_disconnect env s).2.1.pwd_prompts = s.pwd_prompts := by
  obtain ⟨ps, pwd, script⟩ := s
  cases script with
  | nil => simp [do_disconnect]
  | cons r rest =>
    cases r with
    | error e => simp [do_disconnect]
    | ok resp => simp [do_disconnect]

/-!
Concrete fixtures used by witnesses and counterexamples.
-/

/-- An environment whose collaborators all succeed. -/
def stubEnv : Env :=
  ⟨fun _ => .ok "typed", fun _ => .ok "kc-pass", fun _ _ => .ok (), fun _ => .ok (),
   .ok "000000", .ok [], .ok ()⟩

/-- User `alice`, empty stored password, keychain enabled. -/
def aliceParams : TunnelParams :=
  ⟨"vpn.example.com", "vpn", "alice", "", none, false⟩

/-- User `alice`, empty stored password, keychain disabled. -/
def promptParams : TunnelParams :=
  ⟨"vpn.example.com", "vpn", "alice", "", none, true⟩

/-- User `bob`, non-empty stored password, keychain enabled. -/
def bobParams : TunnelParams :=
  ⟨"vpn.example.com", "vpn", "bob", "hunter2", none, false⟩

/-- Environment whose keychain acquire fails. -/
def keychainFailEnv : Env :=
  { stubEnv with acquirePassword := fun _ => .error "keychain locked" }

/-- Environment whose secure prompt answers with padded whitespace. -/
def paddedInputEnv : Env :=
  { stubEnv with secureInput := fun _ => .ok "  hunter2  " }

/-- Environment whose secure prompt answers an MFA code. -/
def mfaCodeEnv : Env :=
  { stubEnv with secureInput := fun _ => .ok "123456" }

/-!
Claim theorems.
-/

/-- C1, counterexample: the claim says destruction never fails and cleanup
always runs exactly once, but `Drop for SnxIpsecTunnel` calls `.unwrap()` on
`tokio::runtime::Builder::build()`. At the concrete input where the runtime
build fails, cleanup runs zero times and the drop path panics — the
context-setup error does propagate out of drop. -/
theorem C1_drop_unwrap_counterexample :
    (SnxIpsecTunnel.drop ⟨.error "runtime build failure"⟩).cleanupCalls = 0 ∧
    (SnxIpsecTunnel.drop ⟨.error "runtime build failure"⟩).panicked = true :=
  ⟨rfl, rfl⟩

/-- C1, amended: whenever the current-thread Tokio runtime for the scoped
cleanup thread is built successfully, destruction invokes the configurator's
cleanup exactly once, the scoped thread is joined so cleanup completes before
drop returns, and drop does not fail (cleanup's signature returns unit, so no
cleanup error exists to propagate). Only a runtime-construction failure
escapes, as a panic from the `unwrap`. -/
theorem C1_drop_cleanup_exactly_once (env : DropEnv)
    (h : env.runtimeBuild = .ok ()) :
    SnxIpsecTunnel.drop env = { cleanupCalls := 1, panicked := false } := by
  simp [SnxIpsecTunnel.drop, h]

/-- C1 witness: the amended theorem applied at a successful runtime build. -/
theorem C1_drop_cleanup_exactly_once_witness :
    SnxIpsecTunnel.drop ⟨.ok ()⟩ = { cleanupCalls := 1, panicked := false } :=
  C1_drop_cleanup_exactly_once ⟨.ok ()⟩ rfl

/-- C4: for a run that reaches the race (the decapsulation listener started),
if the stop signal wins, `run` sends the one-shot stop to the decapsulation
listener and returns `Ok`; if the keepalive runner completes first, `run`
returns the keepalive runner's result as the tunnel's terminal outcome. -/
theorem C4_run_race (env : RunEnv) (h : env.decapStart = .ok ()) :
    (env.winner = .stopSignal →
      SnxIpsecTunnel.run env =
        (.ok (), [.decapStarted, .connectedStored, .decapStopSent])) ∧
    (∀ result, env.winner = .keepalive result →
      SnxIpsecTunnel.run env = (result, [.decapStarted, .connectedStored])) := by
  constructor
  · intro hw
    simp [SnxIpsecTunnel.run, h, hw]
  · intro result hw
    simp [SnxIpsecTunnel.run, h, hw]

/-- C4 witness: both race outcomes at concrete inputs — a stop signal yields
success with the stop sent to the listener; a keepalive failure is returned
as the tunnel's result. -/
theorem C4_run_race_witness :
    SnxIpsecTunnel.run ⟨.ok (), .stopSignal⟩ =
      (.ok (), [.decapStarted, .connectedStored, .decapStopSent]) ∧
    SnxIpsecTunnel.run ⟨.ok (), .keepalive (.error "keepalive failed")⟩ =
      (.error "keepalive failed", [.decapStarted, .connectedStored]) :=
  ⟨(C4_run_race ⟨.ok (), .stopSignal⟩ rfl).1 rfl,
   (C4_run_race ⟨.ok (), .keepalive (.error "keepalive failed")⟩ rfl).2
     (.error "keepalive failed") rfl⟩

/-- C2, counterexample: with an empty configured password, no certificate and
keychain enabled, a failing `acquire_password` does not fail the Connect
command. At this concrete input the command succeeds and the `Connect`
request is still sent (with the original parameters): the code's
`if let Ok(password) = ...` silently discards the keychain error. -/
theorem C2_acquire_failure_counterexample :
    command keychainFailEnv
      ⟨aliceParams, none,
        [.ok (.ConnectionStatus ⟨some 1, none⟩), .ok .Ok,
         .ok (.ConnectionStatus ⟨some 1, none⟩)]⟩ .Connect =
      (.ok ⟨some 1, none⟩, ⟨aliceParams, some [], []⟩,
        [.fillPwdPrompts, .sendReceive .GetStatus RECV_TIMEOUT,
         .acquirePassword "alice",
         .sendReceive (.Connect aliceParams) CONNECT_TIMEOUT,
         .sendReceive .GetStatus RECV_TIMEOUT]) := rfl

/-- C2, amended: a failure of the keychain's `acquire_password` is ignored:
the connect step proceeds, sending `Connect` with the parameters unchanged
(hence the still-empty password); the command's outcome is then determined by
the service's response, not by the acquire error. (Only the interactive
prompt's failure, in the `no_keychain` branch, propagates.) -/
theorem C2_acquire_failure_ignored (env : Env) (ps : TunnelParams)
    (pwd : Option (List String)) (e msg : String)
    (rest : List (Except String TunnelServiceResponse))
    (hs : ps.server_name.isEmpty = false)
    (hl : ps.login_type.isEmpty = false)
    (hp : ps.password.isEmpty = true)
    (hcert : ps.client_cert = none)
    (hkc : ps.no_keychain = false)
    (hacq : env.acquirePassword ps.user_name = .error e) :
    do_connect env ⟨ps, pwd, .ok (.Error msg) :: rest⟩ =
      (.error msg, ⟨ps, pwd, rest⟩,
        [.acquirePassword ps.user_name,
         .sendReceive (.Connect ps) CONNECT_TIMEOUT]) := by
  simp [do_connect, hs, hl, hp, hcert, hkc, hacq]

/-- C2 witness: the amended theorem at a concrete input where the keychain is
locked and the service then rejects the connect. -/
theorem C2_acquire_failure_ignored_witness :
    do_connect keychainFailEnv ⟨aliceParams, none, [.ok (.Error "bad creds")]⟩ =
      (.error "bad creds", ⟨aliceParams, none, []⟩,
        [.acquirePassword "alice",
         .sendReceive (.Connect aliceParams) CONNECT_TIMEOUT]) :=
  C2_acquire_failure_ignored keychainFailEnv aliceParams none "keychain locked"
    "bad creds" [] rfl rfl rfl rfl rfl rfl

/-- C3, counterexample: with an empty server name, the Connect command does
fail with the fatal missing-parameter error, but only after the best-effort
prompt prefetch and a full `GetStatus` IPC exchange: the trace at this
concrete input contains an IPC send before the failure is returned, refuting
"no IPC request is sent and no server is contacted before the failure". -/
theorem C3_check_not_before_ipc_counterexample :
    command stubEnv
      ⟨⟨"", "vpn", "alice", "", none, false⟩, none,
        [.ok (.ConnectionStatus ⟨some 1, none⟩)]⟩ .Connect =
      (.error missingParamsError,
        ⟨⟨"", "vpn", "alice", "", none, false⟩, some [], []⟩,
        [.fillPwdPrompts, .sendReceive .GetStatus RECV_TIMEOUT]) := rfl

/-- C3, amended: the missing-parameter check is fatal at the start of the
connect step: with an empty server name or login type, `do_connect` fails
immediately with the literal error, performing no IPC send, no password
acquisition and no prompt. The enclosing Connect command, however, first runs
the prompt prefetch and one `GetStatus` exchange, so the command as a whole
does contact the service before returning the failure. -/
theorem C3_missing_params_fatal (env : Env) (ps : TunnelParams)
    (pwd : Option (List String))
    (script : List (Except String TunnelServiceResponse))
    (h : (ps.server_name.isEmpty || ps.login_type.isEmpty) = true) :
    do_connect env ⟨ps, pwd, script⟩ =
      (.error missingParamsError, ⟨ps, pwd, script⟩, []) := by
  simp [do_connect, h]

/-- C3 witness: the amended theorem at a concrete input with an empty login
type. -/
theorem C3_missing_params_fatal_witness :
    do_connect stubEnv ⟨⟨"vpn.example.com", "", "alice", "", none, false⟩, none,
        [.ok .Ok]⟩ =
      (.error missingParamsError,
        ⟨⟨"vpn.example.com", "", "alice", "", none, false⟩, none, [.ok .Ok]⟩, []) :=
  C3_missing_params_fatal stubEnv ⟨"vpn.example.com", "", "alice", "", none, false⟩
    none [.ok .Ok] rfl

/-- C5: when `GetStatus` answers "not connected, pending `UserInput`
challenge" and — per the protocol assumption — the follow-up status carries
no further challenge (here: any status that is connected or challenge-free),
one status call emits exactly one secure-input prompt (with the challenge
text), exactly one `ChallengeCode` submission (at most one recursion per
challenge), and exactly two `GetStatus` sends; the recursion terminates with
the follow-up status as the result and the script fully consumed. Termination
itself is built into the embedding: the recursion is structural on the
response script, consuming one response per exchange. -/
theorem C5_status_mfa_once (env : Env) (ps : TunnelParams) (p code : String)
    (st3 : ConnectionStatus) (rest : List (Except String TunnelServiceResponse))
    (hinput : env.secureInput p = .ok code)
    (hnochain : st3.connected_since = none → st3.mfa = none) :
    do_status env ps
      (.ok (.ConnectionStatus ⟨none, some ⟨.UserInput, p⟩⟩) :: .ok .Ok ::
        .ok (.ConnectionStatus st3) :: rest) =
      (.ok st3, rest,
        [.sendReceive .GetStatus RECV_TIMEOUT, .secureInput p,
         .sendReceive (.ChallengeCode code ps) CONNECT_TIMEOUT,
         .sendReceive .GetStatus RECV_TIMEOUT] ++
        (if st3.connected_since.isSome && !ps.password.isEmpty && !ps.no_keychain
          then [.storePassword ps.user_name ps.password] else [])) ∧
    (do_status env ps
      (.ok (.ConnectionStatus ⟨none, some ⟨.UserInput, p⟩⟩) :: .ok .Ok ::
        .ok (.ConnectionStatus st3) :: rest)).2.2.countP Event.isSecureInput = 1 ∧
    (do_status env ps
      (.ok (.ConnectionStatus ⟨none, some ⟨.UserInput, p⟩⟩) :: .ok .Ok ::
        .ok (.ConnectionStatus st3) :: rest)).2.2.countP Event.isChallengeCodeSend = 1 ∧
    (do_status env ps
      (.ok (.ConnectionStatus ⟨none, some ⟨.UserInput, p⟩⟩) :: .ok .Ok ::
        .ok (.ConnectionStatus st3) :: rest)).2.2.countP Event.isGetStatusSend = 2 := by
  have hmain :
      do_status env ps
        (.ok (.ConnectionStatus ⟨none, some ⟨.UserInput, p⟩⟩) :: .ok .Ok ::
          .ok (.ConnectionStatus st3) :: rest) =
        (.ok st3, rest,
          [.sendReceive .GetStatus RECV_TIMEOUT, .secureInput p,
           .sendReceive (.ChallengeCode code ps) CONNECT_TIMEOUT,
           .sendReceive .GetStatus RECV_TIMEOUT] ++
          (if st3.connected_since.isSome && !ps.password.isEmpty && !ps.no_keychain
            then [.storePassword ps.user_name ps.password] else [])) := by
    rcases st3 with ⟨cs, mf⟩
    cases cs with
    | none =>
      have hmf : mf = none := hnochain rfl
      subst hmf
      simp [do_status, do_challenge_code, get_mfa_input, hinput]
    | some t =>
      cases mf <;>
        (simp [do_status, do_challenge_code, get_mfa_input, hinput]; split <;> simp)
  refine ⟨hmain, ?_, ?_, ?_⟩ <;> rw [hmain] <;>
    (split <;>
      simp [List.countP_cons, List.countP_append, List.countP_nil,
        Event.isSecureInput, Event.isChallengeCodeSend, Event.isGetStatusSend])

/-- C5 witness: a concrete `UserInput` challenge resolved with code `123456`,
followed by a connected status without a challenge. -/
theorem C5_status_mfa_once_witness :
    do_status mfaCodeEnv aliceParams
      [.ok (.ConnectionStatus ⟨none, some ⟨.UserInput, "Enter MFA code: "⟩⟩), .ok .Ok,
       .ok (.ConnectionStatus ⟨some 7, none⟩)] =
      (.ok ⟨some 7, none⟩, [],
        [.sendReceive .GetStatus RECV_TIMEOUT, .secureInput "Enter MFA code: ",
         .sendReceive (.ChallengeCode "123456" aliceParams) CONNECT_TIMEOUT,
         .sendReceive .GetStatus RECV_TIMEOUT]) ∧
    (do_status mfaCodeEnv aliceParams
      [.ok (.ConnectionStatus ⟨none, some ⟨.UserInput, "Enter MFA code: "⟩⟩), .ok .Ok,
       .ok (.ConnectionStatus ⟨some 7, none⟩)]).2.2.countP Event.isSecureInput = 1 := by
  have h := C5_status_mfa_once mfaCodeEnv aliceParams "Enter MFA code: " "123456"
    ⟨some 7, none⟩ [] rfl (fun hcontr => nomatch hcontr)
  exact ⟨h.1, h.2.1⟩

/-- C6: (i) on a connected status with a non-empty configured password and
keychain enabled, `do_status` performs exactly one keychain store carrying
the literal user name and password, and still returns the status with `Ok`
— the store's own result is discarded by the code (`let _ = ...`), which is
why the environment's `storePassword` oracle (arbitrary here, including a
failing one) does not appear in the outcome at all; (ii) with an empty
password or keychain disabled, no store happens anywhere in the status
recursion; (iii) on a disconnected, challenge-free status no store happens
either. -/
theorem C6_store_password (env : Env) (ps : TunnelParams) :
    (∀ (t : Nat) (mfa : Option MfaChallenge) rest,
      ps.password.isEmpty = false → ps.no_keychain = false →
      do_status env ps (.ok (.ConnectionStatus ⟨some t, mfa⟩) :: rest) =
        (.ok ⟨some t, mfa⟩, rest,
          [.sendReceive .GetStatus RECV_TIMEOUT,
           .storePassword ps.user_name ps.password])) ∧
    (∀ script, (ps.password.isEmpty || ps.no_keychain) = true →
      (do_status env ps script).2.2.countP Event.isStorePassword = 0) ∧
    (∀ rest, do_status env ps (.ok (.ConnectionStatus ⟨none, none⟩) :: rest) =
      (.ok ⟨none, none⟩, rest, [.sendReceive .GetStatus RECV_TIMEOUT])) := by
  refine ⟨?_, ?_, ?_⟩
  · intro t mfa rest hp hk
    cases mfa <;> simp [do_status, hp, hk]
  · intro script hc
    exact ((status_events_aux env ps script.length script le_rfl).1).2 hc
  · intro rest
    simp [do_status]

/-- C6 witness: `bob`'s literal credentials are stored exactly once on a
connected status (even though `stubEnv`'s store oracle could have been
anything), and no store happens for `alice`, whose password is empty. -/
theorem C6_store_password_witness :
    do_status stubEnv bobParams [.ok (.ConnectionStatus ⟨some 5, none⟩)] =
      (.ok ⟨some 5, none⟩, [],
        [.sendReceive .GetStatus RECV_TIMEOUT, .storePassword "bob" "hunter2"]) ∧
    (do_status stubEnv aliceParams
      [.ok (.ConnectionStatus ⟨some 5, none⟩)]).2.2.countP Event.isStorePassword = 0 :=
  ⟨(C6_store_password stubEnv bobParams).1 5 none [] rfl rfl,
   (C6_store_password stubEnv aliceParams).2.1
     [.ok (.ConnectionStatus ⟨some 5, none⟩)] rfl⟩

/-- C7: in the empty-password, no-certificate, `no_keychain` branch, the
first externally visible action of the connect step is the secure prompt,
whose text is the front of the pre-fetched prompt queue when one is queued
(the front is popped), and otherwise the literal
`"Enter password for " ++ user ++ ": "`. -/
theorem C7_prompt_selection (env : Env) (ps : TunnelParams)
    (pwd : Option (List String)) (script : List (Except String TunnelServiceResponse))
    (hs : ps.server_name.isEmpty = false)
    (hl : ps.login_type.isEmpty = false)
    (hp : ps.password.isEmpty = true)
    (hcert : ps.client_cert = none)
    (hkc : ps.no_keychain = true) :
    (do_connect env ⟨ps, pwd, script⟩).2.2.head? =
      some (.secureInput (chosenPrompt pwd ps.user_name)) ∧
    (do_connect env ⟨ps, pwd, script⟩).2.1.pwd_prompts = poppedQueue pwd ∧
    (∀ q qs, chosenPrompt (some (q :: qs)) ps.user_name = q) ∧
    chosenPrompt (some []) ps.user_name = "Enter password for " ++ ps.user_name ++ ": " ∧
    chosenPrompt none ps.user_name = "Enter password for " ++ ps.user_name ++ ": " := by
  have hpair :
      (do_connect env ⟨ps, pwd, script⟩).2.2.head? =
        some (.secureInput (chosenPrompt pwd ps.user_name)) ∧
      (do_connect env ⟨ps, pwd, script⟩).2.1.pwd_prompts = poppedQueue pwd := by
    cases henv : env.secureInput (chosenPrompt pwd ps.user_name) with
    | error e => simp [do_connect, hs, hl, hp, hcert, hkc, henv]
    | ok input =>
      cases script with
      | nil => simp [do_connect, hs, hl, hp, hcert, hkc, henv]
      | cons r rest =>
        cases r with
        | error e2 => simp [do_connect, hs, hl, hp, hcert, hkc, henv]
        | ok resp => cases resp <;> simp [do_connect, hs, hl, hp, hcert, hkc, henv]
  exact ⟨hpair.1, hpair.2, fun q qs => rfl, rfl, rfl⟩

/-- C7 witness: with an empty queue the prompt is the literal
`"Enter password for alice: "`; with a queued prompt, that prompt is used. -/
theorem C7_prompt_selection_witness :
    (do_connect stubEnv ⟨promptParams, none, []⟩).2.2.head? =
      some (.secureInput "Enter password for alice: ") ∧
    (do_connect stubEnv ⟨promptParams, some ["Org passcode: ", "Next: "], []⟩).2.2.head? =
      some (.secureInput "Org passcode: ") ∧
    (do_connect stubEnv
        ⟨promptParams, some ["Org passcode: ", "Next: "], []⟩).2.1.pwd_prompts =
      some ["Next: "] := by
  have h1 := C7_prompt_selection stubEnv promptParams none [] rfl rfl rfl rfl rfl
  have h2 := C7_prompt_selection stubEnv promptParams
    (some ["Org passcode: ", "Next: "]) [] rfl rfl rfl rfl rfl
  exact ⟨h1.1, h2.1, h2.2.1⟩

/-- C8: with a non-empty configured password and keychain use enabled, the
password-acquisition branch is skipped entirely: the connect step's first
externally visible action is already the `Connect` send carrying the stored
parameters as-is, no keychain acquire happens anywhere in the command's
continuation, and the stored parameters are unchanged when the step returns.
(No prompt can precede the send, since nothing precedes it; prompts occurring
later belong to MFA challenge resolution, not password acquisition.) -/
theorem C8_no_acquisition_with_password (env : Env) (ps : TunnelParams)
    (pwd : Option (List String)) (script : List (Except String TunnelServiceResponse))
    (hs : ps.server_name.isEmpty = false)
    (hl : ps.login_type.isEmpty = false)
    (hp : ps.password.isEmpty = false)
    (_hkc : ps.no_keychain = false) :
    (do_connect env ⟨ps, pwd, script⟩).2.2.head? =
      some (.sendReceive (.Connect ps) CONNECT_TIMEOUT) ∧
    (do_connect env ⟨ps, pwd, script⟩).2.1.params = ps ∧
    (do_connect env ⟨ps, pwd, script⟩).2.2.countP Event.isAcquirePassword = 0 :=
  do_connect_nonempty_head env ⟨ps, pwd, script⟩ hs hl hp

/-- C8 witness: `bob` has a stored password; the first action is the
`Connect` send with `bob`'s parameters unchanged and no acquire occurs. -/
theorem C8_no_acquisition_with_password_witness :
    (do_connect stubEnv ⟨bobParams, none, [.ok (.Error "nope")]⟩).2.2.head? =
      some (.sendReceive (.Connect bobParams) CONNECT_TIMEOUT) ∧
    (do_connect stubEnv ⟨bobParams, none, [.ok (.Error "nope")]⟩).2.1.params =
      bobParams ∧
    (do_connect stubEnv
        ⟨bobParams, none, [.ok (.Error "nope")]⟩).2.2.countP
        Event.isAcquirePassword = 0 :=
  C8_no_acquisition_with_password stubEnv bobParams none [.ok (.Error "nope")]
    rfl rfl rfl rfl

/-- C9: `Reconnect` is exactly best-effort disconnect, then prompt prefetch,
then connect: even when the disconnect step fails, the command's result and
trace are the disconnect trace followed by the prefetch and the connect step
run on the post-disconnect state, and (with connect's preconditions met) the
`Connect` request is actually sent. -/
theorem C9_reconnect_ignores_disconnect_error (env : Env) (s : CState) (e : String)
    (_hd : (do_disconnect env s).1 = .error e)
    (hs : s.params.server_name.isEmpty = false)
    (hl : s.params.login_type.isEmpty = false)
    (hp : s.params.password.isEmpty = false) :
    command env s .Reconnect =
      ((do_connect env (fill_pwd_prompts env (do_disconnect env s).2.1).1).1,
       (do_connect env (fill_pwd_prompts env (do_disconnect env s).2.1).1).2.1,
       (do_disconnect env s).2.2 ++ [.fillPwdPrompts] ++
         (do_connect env (fill_pwd_prompts env (do_disconnect env s).2.1).1).2.2) ∧
    (do_connect env (fill_pwd_prompts env (do_disconnect env s).2.1).1).2.2.head? =
      some (.sendReceive (.Connect s.params) CONNECT_TIMEOUT) := by
  have hparams :
      (fill_pwd_prompts env (do_disconnect env s).2.1).1.params = s.params := by
    simp [fill_pwd_prompts, (do_disconnect_params env s).1]
  constructor
  · rfl
  · have h2 := (do_connect_nonempty_head env
      (fill_pwd_prompts env (do_disconnect env s).2.1).1
      (by rw [hparams]; exact hs) (by rw [hparams]; exact hl)
      (by rw [hparams]; exact hp)).1
    rw [hparams] at h2
    exact h2

/-- C9 witness: the disconnect step fails with a transport-level error, yet
the prefetch runs and the `Connect` request is still sent. -/
theorem C9_reconnect_ignores_disconnect_error_witness :
    command stubEnv ⟨bobParams, none, [.error "proto failure"]⟩ .Reconnect =
      (.error noResponseError, ⟨bobParams, some [], []⟩,
        [.sendReceive .Disconnect RECV_TIMEOUT, .fillPwdPrompts,
         .sendReceive (.Connect bobParams) CONNECT_TIMEOUT]) ∧
    (do_connect stubEnv (fill_pwd_prompts stubEnv
        (do_disconnect stubEnv ⟨bobParams, none, [.error "proto failure"]⟩).2.1).1).2.2.head? =
      some (.sendReceive (.Connect bobParams) CONNECT_TIMEOUT) :=
  C9_reconnect_ignores_disconnect_error stubEnv
    ⟨bobParams, none, [.error "proto failure"]⟩ "proto failure" rfl rfl rfl rfl

/-- C10: in the interactive-acquisition branch, the password committed to the
parameters and carried by the `Connect` request is the prompt result with
leading and trailing whitespace removed (`trim`), not the raw typed input. -/
theorem C10_password_trimmed (env : Env) (ps : TunnelParams)
    (pwd : Option (List String)) (script : List (Except String TunnelServiceResponse))
    (input : String)
    (hs : ps.server_name.isEmpty = false)
    (hl : ps.login_type.isEmpty = false)
    (hp : ps.password.isEmpty = true)
    (hcert : ps.client_cert = none)
    (hkc : ps.no_keychain = true)
    (hin : env.secureInput (chosenPrompt pwd ps.user_name) = .ok input) :
    (do_connect env ⟨ps, pwd, script⟩).2.1.params =
      { ps with password := trimString input } ∧
    (do_connect env ⟨ps, pwd, script⟩).2.2.take 2 =
      [.secureInput (chosenPrompt pwd ps.user_name),
       .sendReceive (.Connect { ps with password := trimString input }) CONNECT_TIMEOUT] := by
  cases script with
  | nil => simp [do_connect, hs, hl, hp, hcert, hkc, hin]
  | cons r rest =>
    cases r with
    | error e => simp [do_connect, hs, hl, hp, hcert, hkc, hin]
    | ok resp => cases resp <;> simp [do_connect, hs, hl, hp, hcert, hkc, hin]

/-- C10 witness: typing `"  hunter2  "` at the prompt commits and sends the
trimmed password `"hunter2"`. -/
theorem C10_password_trimmed_witness :
    (do_connect paddedInputEnv ⟨promptParams, none, []⟩).2.1.params =
      { promptParams with password := "hunter2" } ∧
    (do_connect paddedInputEnv ⟨promptParams, none, []⟩).2.2.take 2 =
      [.secureInput "Enter password for alice: ",
       .sendReceive (.Connect { promptParams with password := "hunter2" })
         CONNECT_TIMEOUT] :=
  C10_password_trimmed paddedInputEnv promptParams none [] "  hunter2  "
    rfl rfl rfl rfl rfl rfl
